import Mathlib

/-!
Verification of the Capture & On-Demand Analysis Engine
(`GeminiOnDemandService`, src/unnamed/part_001) against its
natural-language specification.

The engine is shallowly embedded: the mutable class fields become a
`ServiceState` record, each method becomes a state-transformer returning
the new state together with the observable outputs of the call (callback
events fired, provider calls issued, chunks yielded by the async
generators).  Interactions with the remote provider are parameters of the
corresponding operation (an oracle value describing how the provider
answered), so that every behaviour of the environment is quantified over.
Audio `Blob`s are modelled as `Chunk` values carrying an identifier and a
byte size; the base64 transport encoding is not modelled (provider calls
carry the chunk lists themselves).  JavaScript `number` fields that hold
integer counts are `Nat`; the floating-point cost accumulator is `ℚ`.
-/

/-- One `Blob` of recorded audio as delivered by `ondataavailable`:
an opaque identifier plus its byte size (`event.data.size`). -/
structure Chunk where
  id : Nat
  size : Nat
deriving DecidableEq, Repr

/-- Mirror of the `UsageStats` interface in src/unnamed/part_000. -/
structure UsageStats where
  analyzedCount : Nat
  totalAudioSeconds : Nat
  estimatedCost : ℚ
deriving DecidableEq, Repr

/-- `TOKENS_PER_SECOND_AUDIO` from src/unnamed/part_001 line 4. -/
def TOKENS_PER_SECOND_AUDIO : ℚ := 25

/-- `CHARS_PER_TOKEN_ESTIMATION` from src/unnamed/part_001 line 5. -/
def CHARS_PER_TOKEN_ESTIMATION : ℚ := 3

/-- `MAX_AUDIO_BLOB_SIZE` from src/unnamed/part_001 line 8: 15 MiB. -/
def MAX_AUDIO_BLOB_SIZE : Nat := 15 * 1024 * 1024

/-- `MIN_CACHING_CHARS` from src/unnamed/part_001 line 17. -/
def MIN_CACHING_CHARS : Nat := 32000

/-- Per-model pricing entry of `PRICING_RATES_PER_1M`. -/
structure Rates where
  inputAudio : ℚ
  output : ℚ
deriving DecidableEq, Repr

/-- `PRICING_RATES_PER_1M` from src/unnamed/part_001 lines 10-14. -/
def PRICING_RATES_PER_1M : List (String × Rates) :=
  [("gemini-3-flash-preview", { inputAudio := 1, output := 3 }),
   ("gemini-2.5-flash", { inputAudio := 1, output := 5/2 }),
   ("gemini-2.5-flash-lite", { inputAudio := 3/10, output := 2/5 })]

/-- `DEFAULT_RATES` from src/unnamed/part_001 line 16. -/
def DEFAULT_RATES : Rates := { inputAudio := 1, output := 5/2 }

/-- `AudioSourceMode` from src/unnamed/part_001 line 19. -/
inductive AudioSourceMode
  | mic
  | system
  | mixed
deriving DecidableEq, Repr

/-- The mutable fields of class `GeminiOnDemandService`
(src/unnamed/part_001 lines 22-40).  The `client`, `mediaRecorder`,
`streams` and `audioContext` fields hold external OS/network resources;
of those only the presence of an active recorder is observable to the
embedded operations, kept as the boolean `recording`. -/
structure ServiceState where
  audioChunks : List Chunk
  fullSessionChunks : List Chunk
  headerChunk : Option Chunk
  maxBufferSeconds : Nat
  recordedMimeType : String
  currentModel : String
  cachedContentName : Option String
  isCacheActive : Bool
  sourceMode : AudioSourceMode
  usageStats : UsageStats
  recording : Bool
deriving DecidableEq, Repr

/-- Field-initializer values of `GeminiOnDemandService`
(src/unnamed/part_001 lines 22-40). -/
def initialState : ServiceState where
  audioChunks := []
  fullSessionChunks := []
  headerChunk := none
  maxBufferSeconds := 60
  recordedMimeType := "audio/webm"
  currentModel := "gemini-2.5-flash-lite"
  cachedContentName := none
  isCacheActive := false
  sourceMode := AudioSourceMode.mic
  usageStats := { analyzedCount := 0, totalAudioSeconds := 0, estimatedCost := 0 }
  recording := false

/-- One invocation of the public callbacks `onUsageUpdate` /
`onCacheStatusChange` (src/unnamed/part_001 lines 42-43). -/
inductive Event
  | cacheStatus (isActive : Bool)
  | usageUpdate (stats : UsageStats)
deriving DecidableEq, Repr

/-- The request configuration assembled for `models.generateContent`:
only the fields the engine branches on are kept.  `cachedContent` and
`systemInstruction` are each optional; the source sets exactly one. -/
structure GenerationConfig where
  responseMimeType : Option String
  cachedContent : Option String
  systemInstruction : Option String
deriving DecidableEq, Repr

/-- One outbound request to the inference provider. -/
inductive ProviderCall
  | cachesCreate (model : String) (systemContent : String) (ttl : String)
  | generateContent (model : String) (audio : List Chunk) (mimeType : String)
      (prompt : String) (config : GenerationConfig)
  | generateContentStream (model : String) (audio : List Chunk) (mimeType : String)
      (prompt : String) (temperature : Option ℚ)
deriving DecidableEq, Repr

/-- Observable result of running one engine operation: the state after
the call, the callback events fired (in order), the provider calls
issued (in order), and the strings yielded by the async generator. -/
structure EngineOut where
  state : ServiceState
  events : List Event
  calls : List ProviderCall
  yields : List String
deriving DecidableEq, Repr

/-- JavaScript `String.prototype.includes`, via `splitOn`: a non-empty
pattern occurs in `s` iff splitting on it produces more than one part. -/
def includesSub (s pat : String) : Bool :=
  1 < (s.splitOn pat).length

/-- `isRateLimitError` from src/unnamed/part_001 lines 68-71, applied to
the error message string. -/
def isRateLimitError (msg : String) : Bool :=
  let m := msg.toLower
  includesSub m "429" || includesSub m "rate limit" || includesSub m "quota exceeded"

/-- `isEntityTooLargeError` from src/unnamed/part_001 lines 73-76. -/
def isEntityTooLargeError (msg : String) : Bool :=
  let m := msg.toLower
  includesSub m "413" || includesSub m "too large" || includesSub m "entity too large"

/-- `getRates` from src/unnamed/part_001 lines 49-51. -/
def getRates (model : String) : Rates :=
  match PRICING_RATES_PER_1M.lookup model with
  | some r => r
  | none => DEFAULT_RATES

/-- `addInputAudioCost` from src/unnamed/part_001 lines 53-59. -/
def addInputAudioCost (seconds : Nat) (s : ServiceState) : ServiceState :=
  let rates := getRates s.currentModel
  let inputTokens : ℚ := (seconds : ℚ) * TOKENS_PER_SECOND_AUDIO
  let cost := inputTokens / 1000000 * rates.inputAudio
  { s with usageStats :=
      { s.usageStats with
          estimatedCost := s.usageStats.estimatedCost + cost,
          totalAudioSeconds := s.usageStats.totalAudioSeconds + seconds } }

/-- `addOutputTextCost` from src/unnamed/part_001 lines 61-66. -/
def addOutputTextCost (text : String) (s : ServiceState) : ServiceState :=
  let rates := getRates s.currentModel
  let estimatedTokens : ℚ := (text.length : ℚ) / CHARS_PER_TOKEN_ESTIMATION
  let cost := estimatedTokens / 1000000 * rates.output
  { s with usageStats :=
      { s.usageStats with
          estimatedCost := s.usageStats.estimatedCost + cost } }

/-- `setModel` from src/unnamed/part_001 lines 78-85.  The guard: the
body runs only when the requested model differs from the current one. -/
def setModel (modelName : String) (s : ServiceState) : ServiceState × List Event :=
  if s.currentModel ≠ modelName then
    ({ s with currentModel := modelName, cachedContentName := none, isCacheActive := false },
     [Event.cacheStatus false])
  else
    (s, [])

/-- `setBufferDuration` from src/unnamed/part_001 lines 87-92.  The
TypeScript method has no return statement, so a call evaluates to
`undefined`; the second component models that returned value (a number
would be `some n`, and `undefined` is `none`). -/
def setBufferDuration (seconds : Nat) (s : ServiceState) : ServiceState × Option Nat :=
  let s1 := { s with maxBufferSeconds := seconds }
  if s1.maxBufferSeconds < s1.audioChunks.length then
    ({ s1 with audioChunks := s1.audioChunks.drop (s1.audioChunks.length - s1.maxBufferSeconds) },
     none)
  else
    (s1, none)

/-- The `technicalProtocol` template literal of `updateContextCache`
(src/unnamed/part_001 lines 102-108). -/
def cacheTechnicalProtocol : String :=
  "\n[TECHNICAL PROTOCOL]\nYou MUST respond in JSON format with three fields:\n1. situation_analysis: Summarize student confusion.\n2. suggested_action: Specific teaching strategy.\n3. recommended_script: Verbatim natural language for the teacher.\n"

/-- `fullSystemContent` assembled in `updateContextCache`
(src/unnamed/part_001 line 109). -/
def cacheSystemContent (systemInstruction contextContent : String) : String :=
  systemInstruction ++ "\n" ++ cacheTechnicalProtocol ++ "\n\n[Context / Knowledge Base]\n" ++ contextContent

/-- The `caches.create` request issued by `updateContextCache`
(src/unnamed/part_001 lines 110-116). -/
def cacheCreateCall (systemInstruction contextContent : String) (s : ServiceState) : ProviderCall :=
  ProviderCall.cachesCreate s.currentModel (cacheSystemContent systemInstruction contextContent) "3600s"

/-- `updateContextCache` from src/unnamed/part_001 lines 94-128.
`providerResult` is the oracle for the awaited `caches.create` call:
`Except.ok name` is a response carrying `cacheResponse.name`, and
`Except.error e` is a rejection (caught by the `catch` block, whose only
model-visible effect is the fallback).  The outer `Except` is the
async-method result: a thrown error would surface as `Except.error`. -/
def updateContextCache (contextContent systemInstruction : String)
    (providerResult : Except String String) (s : ServiceState) :
    Except String (ServiceState × List Event × List ProviderCall) :=
  if contextContent.length = 0 ∨ contextContent.length < MIN_CACHING_CHARS then
    Except.ok ({ s with cachedContentName := none, isCacheActive := false },
               [Event.cacheStatus false], [])
  else
    match providerResult with
    | Except.ok name =>
        Except.ok ({ s with cachedContentName := some name, isCacheActive := true },
                   [Event.cacheStatus true], [cacheCreateCall systemInstruction contextContent s])
    | Except.error _ =>
        Except.ok ({ s with cachedContentName := none, isCacheActive := false },
                   [Event.cacheStatus false], [cacheCreateCall systemInstruction contextContent s])

/-- The `mediaRecorder.ondataavailable` handler installed by
`startRecording` (src/unnamed/part_001 lines 190-197): a segment with
positive size becomes the header if none is set, is appended to the
rolling buffer (with a single `shift` when the window overflows), and is
appended to the full-session archive. -/
def ondataavailable (c : Chunk) (s : ServiceState) : ServiceState :=
  if 0 < c.size then
    let withHeader :=
      match s.headerChunk with
      | none => { s with headerChunk := some c }
      | some _ => s
    let pushed := { withHeader with audioChunks := withHeader.audioChunks ++ [c] }
    let rolled :=
      if pushed.maxBufferSeconds < pushed.audioChunks.length then
        { pushed with audioChunks := pushed.audioChunks.tail }
      else
        pushed
    { rolled with fullSessionChunks := rolled.fullSessionChunks ++ [c] }
  else
    s

/-- A whole sequence of `ondataavailable` deliveries, oldest first. -/
def pushAll (segs : List Chunk) (s : ServiceState) : ServiceState :=
  segs.foldl (fun st c => ondataavailable c st) s

/-- `stopRecording` from src/unnamed/part_001 lines 205-214: stops the
recorder and releases streams and the audio context; touches none of the
buffers, the header, or the usage counters. -/
def stopRecording (s : ServiceState) : ServiceState :=
  { s with recording := false }

/-- `startRecording` from src/unnamed/part_001 lines 138-203.
`acquire` is the oracle for the whole mode-specific source-acquisition
block (`getUserMedia` / `getDisplayMedia` / mixing graph), which either
succeeds or throws (`CaptureUnavailable`, `PermissionDenied`,
`NoSystemAudioTrack`, ...); `mimeType` is the container format negotiated
by `getSupportedMimeType`.  On success the recorder is created and the
buffers and header are cleared before `mediaRecorder.start` can deliver
any segment; on failure the catch block runs `stopRecording` and
rethrows, reported in the second component. -/
def startRecording (mode : AudioSourceMode) (acquire : Except String Unit)
    (mimeType : String) (s : ServiceState) : ServiceState × Option String :=
  let s0 := { s with sourceMode := mode }
  match acquire with
  | Except.error e => (stopRecording s0, some e)
  | Except.ok _ =>
      ({ s0 with
          recordedMimeType := mimeType,
          recording := true,
          audioChunks := [],
          fullSessionChunks := [],
          headerChunk := none },
       none)

/-- `clearAllSessionData` from src/unnamed/part_001 lines 216-223. -/
def clearAllSessionData (s : ServiceState) : ServiceState × List Event :=
  let s1 := stopRecording s
  let s2 := { s1 with
      audioChunks := [],
      fullSessionChunks := [],
      headerChunk := none,
      usageStats := { analyzedCount := 0, totalAudioSeconds := 0, estimatedCost := 0 } }
  (s2, [Event.usageUpdate s2.usageStats])

/-- Size in bytes of the `Blob` built from a list of chunks. -/
def blobSize (chunks : List Chunk) : Nat :=
  (chunks.map Chunk.size).sum

/-- `this.recordedMimeType.split(';')[0]`. -/
def cleanMimeType (s : ServiceState) : String :=
  (s.recordedMimeType.splitOn ";").headD ""

/-- The `technicalProtocol` template literal of
`analyzeAudioBufferStream` (src/unnamed/part_001 lines 313-319). -/
def analysisTechnicalProtocol : String :=
  "\n[TECHNICAL PROTOCOL]\nRespond in JSON.\n1. situation_analysis: Short summary of logic gap.\n2. suggested_action: Pedagogical next step.\n3. recommended_script: Verbatim script for teacher.\n"

/-- The inline system instruction assembled when no cache is used
(src/unnamed/part_001 line 324). -/
def analysisSystemInstruction (systemInstruction contextContent : String) : String :=
  systemInstruction ++ "\n" ++ analysisTechnicalProtocol ++ "\n\n[RAG Context]\n" ++ contextContent

/-- The JavaScript condition `this.isCacheActive && this.cachedContentName`
(src/unnamed/part_001 line 321); a string is truthy iff non-empty. -/
def analysisCacheUsable (s : ServiceState) : Bool :=
  s.isCacheActive &&
    (match s.cachedContentName with
     | some n => n != ""
     | none => false)

/-- The request config assembled by `analyzeAudioBufferStream`
(src/unnamed/part_001 lines 300-325): JSON response mode plus either a
cache reference or the inlined merged instruction + context, never both. -/
def analysisConfig (systemInstruction contextContent : String) (s : ServiceState) :
    GenerationConfig :=
  if analysisCacheUsable s then
    { responseMimeType := some "application/json",
      cachedContent := s.cachedContentName,
      systemInstruction := none }
  else
    { responseMimeType := some "application/json",
      cachedContent := none,
      systemInstruction := some (analysisSystemInstruction systemInstruction contextContent) }

/-- The fixed text part of the analysis request (src/unnamed/part_001 line 333). -/
def analysisPrompt : String :=
  "Analyze the conversation and provide feedback in JSON."

/-- `chunksToProcess` (src/unnamed/part_001 line 291): the header chunk,
when present, is prefixed to the rolling-buffer snapshot. -/
def chunksToProcess (s : ServiceState) : List Chunk :=
  match s.headerChunk with
  | some h => h :: s.audioChunks
  | none => s.audioChunks

/-- `analyzeAudioBufferStream` from src/unnamed/part_001 lines 284-355.
`response` is the oracle for the awaited `models.generateContent` call:
`Except.ok t` is a response whose `.text` is `t` (possibly absent), and
`Except.error e` a rejection with message `e`, handled by the catch
block's error classification. -/
def analyzeAudioBufferStream (contextContent systemInstruction : String)
    (response : Except String (Option String)) (s : ServiceState) : EngineOut :=
  if s.audioChunks.length = 0 then
    { state := s, events := [], calls := [], yields := ["No audio recorded yet."] }
  else
    let s1 := { s with usageStats :=
        { s.usageStats with analyzedCount := s.usageStats.analyzedCount + 1 } }
    let s2 := addInputAudioCost s.audioChunks.length s1
    let ev1 := [Event.usageUpdate s2.usageStats]
    let call := ProviderCall.generateContent s.currentModel (chunksToProcess s)
        (cleanMimeType s) analysisPrompt (analysisConfig systemInstruction contextContent s)
    match response with
    | Except.ok (some text) =>
        let s3 := addOutputTextCost text s2
        { state := s3, events := ev1 ++ [Event.usageUpdate s3.usageStats],
          calls := [call], yields := [text] }
    | Except.ok none =>
        { state := s2, events := ev1, calls := [call], yields := [] }
    | Except.error e =>
        { state := s2, events := ev1, calls := [call],
          yields := [if isRateLimitError e then
                       "\n\n[Error] API Rate limit reached. Please wait."
                     else if isEntityTooLargeError e then
                       "\n\n[Error] The audio clip is too large. Try reducing the Buffer Duration in settings."
                     else
                       "\n\n[Error] " ++ e] }

/-- The fixed text part of the transcript request (src/unnamed/part_001 line 258). -/
def transcriptPrompt : String :=
  "Provide a complete verbatim transcript of this audio in its ORIGINAL LANGUAGE. DO NOT TRANSLATE. Label speakers clearly as [Teacher] and [Student] if possible. Use timestamp tags like (00:00)."

/-- The oversize refusal yielded by `generateFullTranscriptStream`
(src/unnamed/part_001 line 241).  The source interpolates
`(size/1024/1024).toFixed(1)`; the numeric rendering is approximated by
whole mebibytes, which no claim depends on. -/
def tooLongTranscriptMessage (sizeBytes : Nat) : String :=
  "\n\n[Transcript Error] The recording is too long (" ++ toString (sizeBytes / (1024 * 1024)) ++
    "MB) for direct browser transcription. \n\nPlease use the \"Download Full Audio\" button instead and use a dedicated transcription service."

/-- The `for await` loop over the response stream (src/unnamed/part_001
lines 265-272): each delivered chunk with text accrues output cost, fires
a usage update, and is yielded. -/
def consumeStream (chunks : List (Option String)) (s : ServiceState) :
    ServiceState × List Event × List String :=
  chunks.foldl
    (fun acc c =>
      match c with
      | some t =>
          let st := addOutputTextCost t acc.1
          (st, acc.2.1 ++ [Event.usageUpdate st.usageStats], acc.2.2 ++ [t])
      | none => acc)
    (s, [], [])

/-- `generateFullTranscriptStream` from src/unnamed/part_001
lines 231-282.  The stream oracle is split into the chunks delivered
before the stream ended (`streamChunks`) and an optional terminal
rejection (`streamErr`), covering both an immediately-rejected request
(`streamChunks = []`) and a mid-stream failure. -/
def generateFullTranscriptStream (streamChunks : List (Option String))
    (streamErr : Option String) (s : ServiceState) : EngineOut :=
  if s.fullSessionChunks.length = 0 then
    { state := s, events := [], calls := [],
      yields := ["No recording session found to transcribe."] }
  else if MAX_AUDIO_BLOB_SIZE < blobSize s.fullSessionChunks then
    { state := s, events := [], calls := [],
      yields := [tooLongTranscriptMessage (blobSize s.fullSessionChunks)] }
  else
    let audioDuration := s.fullSessionChunks.length
    let s1 := addInputAudioCost audioDuration s
    let ev1 := [Event.usageUpdate s1.usageStats]
    let call := ProviderCall.generateContentStream s.currentModel s.fullSessionChunks
        (cleanMimeType s) transcriptPrompt (some 0)
    let out := consumeStream streamChunks s1
    match streamErr with
    | none => { state := out.1, events := ev1 ++ out.2.1, calls := [call], yields := out.2.2 }
    | some e =>
        { state := out.1, events := ev1 ++ out.2.1, calls := [call],
          yields := out.2.2 ++
            [if isRateLimitError e then
               "\n\n[Transcript Error] API Rate limit reached. Please wait a moment and try again."
             else if isEntityTooLargeError e then
               "\n\n[Transcript Error] Request Entity Too Large. This recording is too long to be processed at once. Please download the audio file instead."
             else
               "\n\n[Transcript Error] " ++ e] }

/-! ## Supporting lemmas about the rolling buffer -/

/-- Closed-form description of one `ondataavailable` delivery. -/
theorem ondata_eq (c : Chunk) (s : ServiceState) :
    ondataavailable c s =
      if 0 < c.size then
        { s with
            headerChunk := (match s.headerChunk with | none => some c | some h => some h),
            audioChunks :=
              (if s.maxBufferSeconds < s.audioChunks.length + 1 then
                (s.audioChunks ++ [c]).tail
              else
                s.audioChunks ++ [c]),
            fullSessionChunks := s.fullSessionChunks ++ [c] }
      else
        s := by
  unfold ondataavailable
  by_cases hc : 0 < c.size
  · rw [if_pos hc, if_pos hc]
    cases hh : s.headerChunk <;>
      by_cases hov : s.maxBufferSeconds < s.audioChunks.length + 1 <;>
        simp [hh, hov, List.length_append]
  · rw [if_neg hc, if_neg hc]

theorem ondata_max (c : Chunk) (s : ServiceState) :
    (ondataavailable c s).maxBufferSeconds = s.maxBufferSeconds := by
  rw [ondata_eq]
  split_ifs <;> rfl

theorem ondata_length_le (c : Chunk) (s : ServiceState)
    (h : s.audioChunks.length ≤ s.maxBufferSeconds) :
    (ondataavailable c s).audioChunks.length ≤ s.maxBufferSeconds := by
  rw [ondata_eq]
  by_cases hc : 0 < c.size
  · simp only [if_pos hc]
    by_cases hov : s.maxBufferSeconds < s.audioChunks.length + 1
    · simp only [if_pos hov, ← List.drop_one, List.length_drop, List.length_append]
      simp
      omega
    · simp only [if_neg hov, List.length_append]
      simp
      omega
  · simp only [if_neg hc]
    exact h

theorem pushAll_cons (c : Chunk) (rest : List Chunk) (s : ServiceState) :
    pushAll (c :: rest) s = pushAll rest (ondataavailable c s) := rfl

theorem pushAll_max (segs : List Chunk) (s : ServiceState) :
    (pushAll segs s).maxBufferSeconds = s.maxBufferSeconds := by
  induction segs generalizing s with
  | nil => rfl
  | cons c rest ih => rw [pushAll_cons, ih, ondata_max]

theorem pushAll_length_le (segs : List Chunk) (s : ServiceState)
    (h : s.audioChunks.length ≤ s.maxBufferSeconds) :
    (pushAll segs s).audioChunks.length ≤ s.maxBufferSeconds := by
  induction segs generalizing s with
  | nil => exact h
  | cons c rest ih =>
      rw [pushAll_cons]
      have h1 := ondata_length_le c s h
      have h2 := ih (ondataavailable c s) (by rw [ondata_max]; exact h1)
      rwa [ondata_max] at h2

/-- FIFO characterization: delivering `segs` (all of positive size) into a
buffer respecting its window leaves the suffix of `buffer ++ segs` that
fits the window. -/
theorem pushAll_audioChunks (segs : List Chunk) (s : ServiceState)
    (hle : s.audioChunks.length ≤ s.maxBufferSeconds)
    (hpos : ∀ c ∈ segs, 0 < c.size) :
    (pushAll segs s).audioChunks =
      (s.audioChunks ++ segs).drop
        (s.audioChunks.length + segs.length - s.maxBufferSeconds) := by
  induction segs generalizing s with
  | nil =>
      simp [pushAll, Nat.sub_eq_zero_of_le hle]
  | cons c rest ih =>
      have hc : 0 < c.size := hpos c (List.mem_cons_self c rest)
      have hrest : ∀ x ∈ rest, 0 < x.size := fun x hx => hpos x (List.mem_cons_of_mem c hx)
      rw [pushAll_cons]
      rcases Nat.lt_or_ge s.audioChunks.length s.maxBufferSeconds with hlt | hge
      · have hnc : ¬ s.maxBufferSeconds < s.audioChunks.length + 1 := by omega
        have hchunks : (ondataavailable c s).audioChunks = s.audioChunks ++ [c] := by
          rw [ondata_eq]
          simp [hc, hnc]
        have hmax := ondata_max c s
        have hle2 : (ondataavailable c s).audioChunks.length
            ≤ (ondataavailable c s).maxBufferSeconds := by
          rw [hchunks, hmax, List.length_append]
          simp
          omega
        have hstep := ih (ondataavailable c s) hle2 hrest
        rw [hstep, hchunks, hmax, List.length_append, List.append_assoc, List.singleton_append]
        congr 1
        simp
        omega
      · have heq : s.audioChunks.length = s.maxBufferSeconds := le_antisymm hle hge
        have hyes : s.maxBufferSeconds < s.audioChunks.length + 1 := by omega
        have hchunks : (ondataavailable c s).audioChunks = (s.audioChunks ++ [c]).tail := by
          rw [ondata_eq]
          simp [hc, hyes]
        have hmax := ondata_max c s
        have hlen2 : (s.audioChunks ++ [c]).tail.length = s.maxBufferSeconds := by
          rw [← List.drop_one, List.length_drop, List.length_append]
          simp
          omega
        have hle2 : (ondataavailable c s).audioChunks.length
            ≤ (ondataavailable c s).maxBufferSeconds := by
          rw [hchunks, hlen2, hmax]
        have hstep := ih (ondataavailable c s) hle2 hrest
        rw [hstep, hchunks, hmax, hlen2]
        have h1 : s.maxBufferSeconds + rest.length - s.maxBufferSeconds = rest.length := by omega
        have h2 : s.audioChunks.length + (c :: rest).length - s.maxBufferSeconds
            = rest.length + 1 := by
          simp
          omega
        rw [h1, h2, ← List.drop_one,
            ← List.drop_append_of_le_length (by simp [List.length_append]),
            List.drop_drop, Nat.add_comm 1 rest.length, List.append_assoc,
            List.singleton_append]

/-! ## Claim theorems -/

/-- C1: for every window size `W` and every sequence of pushed segments,
the rolling buffer satisfies `length ≤ W` immediately after
`setBufferDuration W` and after any subsequent deliveries; and pushing
`k > W` positive-size segments into a fresh buffer leaves exactly the
last `W` of them, in original relative order (FIFO eviction). -/
theorem rollingBuffer_window_invariant (W : Nat) (segs : List Chunk) (s : ServiceState) :
    (pushAll segs (setBufferDuration W s).1).audioChunks.length ≤ W
    ∧ (s.audioChunks = [] → (∀ c ∈ segs, 0 < c.size) → W < segs.length →
        (pushAll segs (setBufferDuration W s).1).audioChunks
          = segs.drop (segs.length - W)) := by
  have hmax : (setBufferDuration W s).1.maxBufferSeconds = W := by
    by_cases h : W < s.audioChunks.length <;> simp [setBufferDuration, h]
  have hchunks : (setBufferDuration W s).1.audioChunks
      = s.audioChunks.drop (s.audioChunks.length - W) := by
    by_cases h : W < s.audioChunks.length
    · simp [setBufferDuration, h]
    · simp [setBufferDuration, h, Nat.sub_eq_zero_of_le (Nat.le_of_not_lt h)]
  constructor
  · have hle : (setBufferDuration W s).1.audioChunks.length
        ≤ (setBufferDuration W s).1.maxBufferSeconds := by
      rw [hmax, hchunks, List.length_drop]
      omega
    have h := pushAll_length_le segs (setBufferDuration W s).1 hle
    rwa [hmax] at h
  · intro hemp hpos _
    have hempty : (setBufferDuration W s).1.audioChunks = [] := by
      rw [hchunks, hemp]
      simp
    have hle : (setBufferDuration W s).1.audioChunks.length
        ≤ (setBufferDuration W s).1.maxBufferSeconds := by
      rw [hempty]
      simp
    have h := pushAll_audioChunks segs (setBufferDuration W s).1 hle hpos
    rw [hempty, hmax] at h
    simpa using h

def c1Segs : List Chunk := [{ id := 0, size := 1 }, { id := 1, size := 1 }]

theorem rollingBuffer_window_invariant_witness :
    (pushAll c1Segs (setBufferDuration 1 initialState).1).audioChunks.length ≤ 1
    ∧ (pushAll c1Segs (setBufferDuration 1 initialState).1).audioChunks
        = c1Segs.drop (c1Segs.length - 1) :=
  ⟨(rollingBuffer_window_invariant 1 c1Segs initialState).1,
   (rollingBuffer_window_invariant 1 c1Segs initialState).2 rfl (by decide) (by decide)⟩

/-- C9 (amended): `setBufferDuration W'` updates the window limit and,
when the current length exceeds `W'`, immediately evicts exactly
`len - W'` oldest segments; however the method has no return statement,
so the evicted count is not reported to the caller (the call evaluates to
`undefined`, modelled as `none`). -/
theorem setWindow_evicts_oldest (W : Nat) (s : ServiceState) :
    (setBufferDuration W s).1.maxBufferSeconds = W
    ∧ (setBufferDuration W s).1.audioChunks
        = s.audioChunks.drop (s.audioChunks.length - W)
    ∧ (setBufferDuration W s).2 = none := by
  by_cases h : W < s.audioChunks.length
  · simp [setBufferDuration, h]
  · simp [setBufferDuration, h, Nat.sub_eq_zero_of_le (Nat.le_of_not_lt h)]

def c9State : ServiceState :=
  { initialState with
      audioChunks := [{ id := 0, size := 1 }, { id := 1, size := 1 }, { id := 2, size := 1 }] }

/-- C9 (counterexample): shrinking a 3-segment buffer to window 1 does
evict two segments, but the call does not return the evicted count 2 —
it returns no value at all. -/
theorem setWindow_returns_no_evicted_count :
    (setBufferDuration 1 c9State).2 ≠ some 2
    ∧ (setBufferDuration 1 c9State).1.audioChunks = [{ id := 2, size := 1 }] := by
  constructor
  · decide
  · decide

theorem setWindow_evicts_oldest_witness :
    (setBufferDuration 1 c9State).1.maxBufferSeconds = 1
    ∧ (setBufferDuration 1 c9State).1.audioChunks
        = c9State.audioChunks.drop (c9State.audioChunks.length - 1)
    ∧ (setBufferDuration 1 c9State).2 = none :=
  setWindow_evicts_oldest 1 c9State

/-- C3 (amended): `setModel m` invalidates the tracked cache entry and
fires the status-change event with `false` exactly when `m` differs from
the currently selected model; when `m` equals the current model the call
is a no-op: state unchanged and no event fired. -/
theorem setModel_invalidates_on_change (m : String) (s : ServiceState) :
    (m ≠ s.currentModel →
      (setModel m s).1.isCacheActive = false
      ∧ (setModel m s).1.cachedContentName = none
      ∧ (setModel m s).1.currentModel = m
      ∧ (setModel m s).2 = [Event.cacheStatus false])
    ∧ (m = s.currentModel → setModel m s = (s, [])) := by
  constructor
  · intro h
    unfold setModel
    rw [if_pos (fun he => h he.symm)]
    exact ⟨rfl, rfl, rfl, rfl⟩
  · intro h
    unfold setModel
    rw [if_neg (fun hne => hne h.symm)]

def c3State : ServiceState :=
  { initialState with
      currentModel := "gemini-2.5-flash",
      cachedContentName := some "caches/session-1",
      isCacheActive := true }

/-- C3 (counterexample): calling `setModel` with the currently selected
model leaves an active cache entry active and fires no status-change
event, so invalidation is not unconditional. -/
theorem setModel_same_model_keeps_cache :
    (setModel "gemini-2.5-flash" c3State).1.isCacheActive = true
    ∧ (setModel "gemini-2.5-flash" c3State).2 = [] := by
  constructor
  · decide
  · decide

theorem setModel_invalidates_on_change_witness :
    ((setModel "gemini-2.5-flash" initialState).1.isCacheActive = false
      ∧ (setModel "gemini-2.5-flash" initialState).2 = [Event.cacheStatus false])
    ∧ setModel "gemini-2.5-flash-lite" initialState = (initialState, []) :=
  ⟨⟨((setModel_invalidates_on_change "gemini-2.5-flash" initialState).1 (by decide)).1,
    ((setModel_invalidates_on_change "gemini-2.5-flash" initialState).1 (by decide)).2.2.2⟩,
   (setModel_invalidates_on_change "gemini-2.5-flash-lite" initialState).2 (by decide)⟩

/-- C2: once an `analyzeAudioBufferStream` request is dispatched over a
non-empty rolling buffer holding `s.audioChunks.length` segments, the
analysis counter increases by exactly 1 and the billed audio seconds by
exactly that segment count — for every provider outcome (response with
text, response without text, or rejection), because both charges happen
before the call is awaited. -/
theorem analyzeWindow_charges_on_dispatch (ctx instr : String)
    (resp : Except String (Option String)) (s : ServiceState)
    (h : s.audioChunks ≠ []) :
    (analyzeAudioBufferStream ctx instr resp s).state.usageStats.analyzedCount
        = s.usageStats.analyzedCount + 1
    ∧ (analyzeAudioBufferStream ctx instr resp s).state.usageStats.totalAudioSeconds
        = s.usageStats.totalAudioSeconds + s.audioChunks.length := by
  have hlen : ¬ s.audioChunks.length = 0 := by simpa using h
  unfold analyzeAudioBufferStream
  rw [if_neg hlen]
  rcases resp with e | t
  · exact ⟨by simp [addInputAudioCost], by simp [addInputAudioCost]⟩
  · rcases t with _ | text
    · exact ⟨by simp [addInputAudioCost], by simp [addInputAudioCost]⟩
    · exact ⟨by simp [addInputAudioCost, addOutputTextCost],
             by simp [addInputAudioCost, addOutputTextCost]⟩

def c2State : ServiceState :=
  { initialState with audioChunks := [{ id := 0, size := 1 }] }

theorem analyzeWindow_charges_on_dispatch_witness :
    (analyzeAudioBufferStream "c" "i" (Except.error "boom") c2State).state.usageStats.analyzedCount
        = c2State.usageStats.analyzedCount + 1
    ∧ (analyzeAudioBufferStream "c" "i" (Except.error "boom") c2State).state.usageStats.totalAudioSeconds
        = c2State.usageStats.totalAudioSeconds + c2State.audioChunks.length :=
  analyzeWindow_charges_on_dispatch "c" "i" (Except.error "boom") c2State (by decide)

/-- C7: `analyzeAudioBufferStream` on an empty rolling buffer fails fast
for every provider oracle: it only yields the empty-buffer notice, issues
no provider call, fires no event, and leaves the state — in particular
`analyzedCount`, `totalAudioSeconds` and `estimatedCost` — unchanged. -/
theorem analyzeWindow_empty_buffer (ctx instr : String)
    (resp : Except String (Option String)) (s : ServiceState)
    (h : s.audioChunks = []) :
    analyzeAudioBufferStream ctx instr resp s =
      { state := s, events := [], calls := [], yields := ["No audio recorded yet."] } := by
  unfold analyzeAudioBufferStream
  rw [if_pos (by simp [h])]

theorem analyzeWindow_empty_buffer_witness :
    analyzeAudioBufferStream "c" "i" (Except.ok none) initialState =
      { state := initialState, events := [], calls := [],
        yields := ["No audio recorded yet."] } :=
  analyzeWindow_empty_buffer "c" "i" (Except.ok none) initialState rfl

/-- C8: every dispatched analysis request carries either a cache
reference or the inline merged instruction + context string, never both:
when the tracked cache entry is usable the single issued call references
`cachedContentName` and sets no inline system instruction; otherwise it
inlines the merged string and carries no cache reference. -/
theorem analysisRequest_cache_xor_inline (ctx instr : String)
    (resp : Except String (Option String)) (s : ServiceState)
    (h : s.audioChunks ≠ []) :
    (analyzeAudioBufferStream ctx instr resp s).calls
        = [ProviderCall.generateContent s.currentModel (chunksToProcess s)
            (cleanMimeType s) analysisPrompt (analysisConfig instr ctx s)]
    ∧ ((analysisConfig instr ctx s).cachedContent = none
        ∨ (analysisConfig instr ctx s).systemInstruction = none)
    ∧ (analysisCacheUsable s = true →
        (analysisConfig instr ctx s).cachedContent = s.cachedContentName
        ∧ (analysisConfig instr ctx s).systemInstruction = none
        ∧ ∃ n, s.cachedContentName = some n)
    ∧ (analysisCacheUsable s = false →
        (analysisConfig instr ctx s).systemInstruction
            = some (analysisSystemInstruction instr ctx)
        ∧ (analysisConfig instr ctx s).cachedContent = none) := by
  have hlen : ¬ s.audioChunks.length = 0 := by simpa using h
  refine ⟨?_, ?_, ?_, ?_⟩
  · unfold analyzeAudioBufferStream
    rw [if_neg hlen]
    rcases resp with e | t
    · rfl
    · rcases t with _ | text <;> rfl
  · unfold analysisConfig
    split_ifs <;> simp
  · intro hcache
    unfold analysisConfig
    rw [if_pos hcache]
    refine ⟨rfl, rfl, ?_⟩
    unfold analysisCacheUsable at hcache
    cases hcn : s.cachedContentName with
    | none => rw [hcn] at hcache; simp at hcache
    | some n => exact ⟨n, rfl⟩
  · intro hnot
    unfold analysisConfig
    rw [if_neg (by simp [hnot])]
    exact ⟨rfl, rfl⟩

def c8State : ServiceState :=
  { initialState with
      audioChunks := [{ id := 0, size := 1 }],
      cachedContentName := some "caches/k1",
      isCacheActive := true }

theorem analysisRequest_cache_xor_inline_witness :
    (analyzeAudioBufferStream "c" "i" (Except.ok (some "out")) c8State).calls
        = [ProviderCall.generateContent c8State.currentModel (chunksToProcess c8State)
            (cleanMimeType c8State) analysisPrompt (analysisConfig "i" "c" c8State)]
    ∧ ((analysisConfig "i" "c" c8State).cachedContent = none
        ∨ (analysisConfig "i" "c" c8State).systemInstruction = none) :=
  ⟨(analysisRequest_cache_xor_inline "c" "i" (Except.ok (some "out")) c8State (by decide)).1,
   (analysisRequest_cache_xor_inline "c" "i" (Except.ok (some "out")) c8State (by decide)).2.1⟩

/-- C5: `updateContextCache` with content shorter than the 32,000-char
threshold issues no provider call and leaves the cache state `false`;
with content at or above the threshold it issues the cache-creation call
(whatever the provider then answers). -/
theorem refresh_threshold (content instr : String) (pr : Except String String)
    (s : ServiceState) :
    (content.length < MIN_CACHING_CHARS →
      updateContextCache content instr pr s =
        Except.ok ({ s with cachedContentName := none, isCacheActive := false },
                   [Event.cacheStatus false], []))
    ∧ (MIN_CACHING_CHARS ≤ content.length →
        (∀ name, pr = Except.ok name →
          updateContextCache content instr pr s =
            Except.ok ({ s with cachedContentName := some name, isCacheActive := true },
                       [Event.cacheStatus true], [cacheCreateCall instr content s]))
        ∧ (∀ e, pr = Except.error e →
          updateContextCache content instr pr s =
            Except.ok ({ s with cachedContentName := none, isCacheActive := false },
                       [Event.cacheStatus false], [cacheCreateCall instr content s]))) := by
  constructor
  · intro h
    unfold updateContextCache
    rw [if_pos (Or.inr h)]
  · intro h
    have hcond : ¬ (content.length = 0 ∨ content.length < MIN_CACHING_CHARS) := by
      unfold MIN_CACHING_CHARS at h ⊢
      omega
    constructor
    · intro name hname
      rw [hname]
      unfold updateContextCache
      rw [if_neg hcond]
    · intro e he
      rw [he]
      unfold updateContextCache
      rw [if_neg hcond]

def smallContent : String := String.mk (List.replicate 31999 'a')

def bigContent : String := String.mk (List.replicate 32001 'a')

theorem smallContent_length : smallContent.length = 31999 := by
  have h : smallContent.length = (List.replicate 31999 'a').length := rfl
  rw [h, List.length_replicate]

theorem bigContent_length : bigContent.length = 32001 := by
  have h : bigContent.length = (List.replicate 32001 'a').length := rfl
  rw [h, List.length_replicate]

theorem refresh_threshold_witness :
    updateContextCache smallContent "i" (Except.ok "caches/x") initialState =
      Except.ok ({ initialState with cachedContentName := none, isCacheActive := false },
                 [Event.cacheStatus false], [])
    ∧ updateContextCache bigContent "i" (Except.ok "caches/x") initialState =
      Except.ok ({ initialState with cachedContentName := some "caches/x", isCacheActive := true },
                 [Event.cacheStatus true], [cacheCreateCall "i" bigContent initialState]) :=
  ⟨(refresh_threshold smallContent "i" (Except.ok "caches/x") initialState).1
     (by rw [smallContent_length]; unfold MIN_CACHING_CHARS; omega),
   (((refresh_threshold bigContent "i" (Except.ok "caches/x") initialState).2
     (by rw [bigContent_length]; unfold MIN_CACHING_CHARS; omega)).1) "caches/x" rfl⟩

/-- C6: whenever the cache-creation call inside `updateContextCache`
fails (the provider rejects, e.g. with rate limiting), the method still
resolves normally (`Except.ok`, no error propagated): the cache handle is
cleared, the cache state becomes `false`, and the status-change event
fires with `false`. -/
theorem refresh_failure_silent_fallback (content instr e : String) (s : ServiceState)
    (h : MIN_CACHING_CHARS ≤ content.length) :
    updateContextCache content instr (Except.error e) s =
      Except.ok ({ s with cachedContentName := none, isCacheActive := false },
                 [Event.cacheStatus false], [cacheCreateCall instr content s]) := by
  have hcond : ¬ (content.length = 0 ∨ content.length < MIN_CACHING_CHARS) := by
    unfold MIN_CACHING_CHARS at h ⊢
    omega
  unfold updateContextCache
  rw [if_neg hcond]

theorem refresh_failure_silent_fallback_witness :
    updateContextCache bigContent "i" (Except.error "429 rate limit") initialState =
      Except.ok ({ initialState with cachedContentName := none, isCacheActive := false },
                 [Event.cacheStatus false], [cacheCreateCall "i" bigContent initialState]) :=
  refresh_failure_silent_fallback bigContent "i" "429 rate limit" initialState
    (by rw [bigContent_length]; unfold MIN_CACHING_CHARS; omega)

/-- C4: the full-session analysis operation
(`generateFullTranscriptStream`) rejects oversized payloads locally:
whenever the archived byte size exceeds `MAX_AUDIO_BLOB_SIZE` it yields
only the size-refusal chunk, issues no provider call, and leaves the
state (in particular the usage counters) unchanged — for every stream
oracle, since the guard runs before the request is built. -/
theorem fullSession_payload_too_large (streamChunks : List (Option String))
    (streamErr : Option String) (s : ServiceState)
    (h1 : s.fullSessionChunks ≠ [])
    (h2 : MAX_AUDIO_BLOB_SIZE < blobSize s.fullSessionChunks) :
    generateFullTranscriptStream streamChunks streamErr s =
      { state := s, events := [], calls := [],
        yields := [tooLongTranscriptMessage (blobSize s.fullSessionChunks)] } := by
  have hlen : ¬ s.fullSessionChunks.length = 0 := by simpa using h1
  unfold generateFullTranscriptStream
  rw [if_neg hlen, if_pos h2]

def c4State : ServiceState :=
  { initialState with fullSessionChunks := [{ id := 0, size := 15728641 }] }

theorem fullSession_payload_too_large_witness :
    generateFullTranscriptStream [] none c4State =
      { state := c4State, events := [], calls := [],
        yields := [tooLongTranscriptMessage (blobSize c4State.fullSessionChunks)] } :=
  fullSession_payload_too_large [] none c4State (by decide) (by decide)

/-- C10: a successful `startRecording` (any mode) empties the rolling
buffer, empties the full-session archive and clears the header segment
before any new segment can arrive, while leaving the usage counters
unchanged; `stopRecording` preserves buffers, header and counters; and
only the explicit `clearAllSessionData` wipe resets `UsageStats`. -/
theorem startRecording_fresh_session (mode : AudioSourceMode) (mime : String)
    (s : ServiceState) :
    ((startRecording mode (Except.ok ()) mime s).1.audioChunks = []
      ∧ (startRecording mode (Except.ok ()) mime s).1.fullSessionChunks = []
      ∧ (startRecording mode (Except.ok ()) mime s).1.headerChunk = none
      ∧ (startRecording mode (Except.ok ()) mime s).1.usageStats = s.usageStats
      ∧ (startRecording mode (Except.ok ()) mime s).2 = none)
    ∧ ((stopRecording s).audioChunks = s.audioChunks
      ∧ (stopRecording s).fullSessionChunks = s.fullSessionChunks
      ∧ (stopRecording s).headerChunk = s.headerChunk
      ∧ (stopRecording s).usageStats = s.usageStats)
    ∧ ((clearAllSessionData s).1.usageStats
        = { analyzedCount := 0, totalAudioSeconds := 0, estimatedCost := 0 }
      ∧ (clearAllSessionData s).1.audioChunks = []
      ∧ (clearAllSessionData s).1.fullSessionChunks = []
      ∧ (clearAllSessionData s).1.headerChunk = none) :=
  ⟨⟨rfl, rfl, rfl, rfl, rfl⟩, ⟨rfl, rfl, rfl, rfl⟩, rfl, rfl, rfl, rfl⟩

def c10State : ServiceState :=
  { initialState with
      audioChunks := [{ id := 0, size := 1 }],
      fullSessionChunks := [{ id := 0, size := 1 }],
      headerChunk := some { id := 0, size := 1 },
      usageStats := { analyzedCount := 2, totalAudioSeconds := 5, estimatedCost := 0 },
      recording := true }

theorem startRecording_fresh_session_witness :
    (startRecording AudioSourceMode.mic (Except.ok ()) "audio/webm" c10State).1.audioChunks = []
    ∧ (startRecording AudioSourceMode.mic (Except.ok ()) "audio/webm" c10State).1.usageStats
        = c10State.usageStats
    ∧ (stopRecording c10State).fullSessionChunks = c10State.fullSessionChunks
    ∧ (clearAllSessionData c10State).1.usageStats
        = { analyzedCount := 0, totalAudioSeconds := 0, estimatedCost := 0 } :=
  ⟨(startRecording_fresh_session AudioSourceMode.mic "audio/webm" c10State).1.1,
   (startRecording_fresh_session AudioSourceMode.mic "audio/webm" c10State).1.2.2.2.1,
   (startRecording_fresh_session AudioSourceMode.mic "audio/webm" c10State).2.1.2.1,
   (startRecording_fresh_session AudioSourceMode.mic "audio/webm" c10State).2.2.1⟩
